import Mathlib

/-
Shallow embedding of the portfolio-sustainability Monte Carlo simulator
(src/rebalance_strategies.py and src/simulation.py).

Modelling conventions:
* Python dicts with string keys are modelled as ordered association lists
  (`Alloc`); dict comprehensions become `List.map` over the entries, and
  `d.get(k, 0)` becomes `getValue`.
* Python floats are modelled as rationals; the only transcendental
  quantities in the source, `np.exp(log_return)` and
  `(1 + inflation_rate) ** (1/12)`, are abstracted: monthly return rows
  carry the multiplicative factor exp(log_return) directly, and the
  simulator takes the monthly inflation factor (1+rate)^(1/12) as a
  parameter.
* `datetime` values are modelled as integer day numbers (datetime(2025,1,1)
  is day 0); `(a - b).days` becomes integer subtraction, exact because the
  simulator only steps dates by whole 30-day increments.
* Mutation of a strategy object is modelled by returning the updated
  strategy; a Python ZeroDivisionError is modelled by a `fault` flag that
  aborts the run, mirroring the exception unwinding the call.
-/

namespace PortfolioMC

/-- A Python dict with string keys and numeric values, as an ordered
association list (dict comprehensions preserve key order). -/
abbrev Alloc := List (String × ℚ)

/-- Python `d.get(k, 0)`: the value stored for key `k`, defaulting to 0. -/
def getValue (d : Alloc) (k : String) : ℚ :=
  (List.lookup k d).getD 0

/-- Python `sum(d.values())`. -/
def valuesSum (d : Alloc) : ℚ :=
  (d.map Prod.snd).sum

/-- The concrete subclass a `RebalanceStrategy` object belongs to, with the
subclass-specific constructor fields (`frequency` for `TimeBasedRebalance`,
`threshold` for `ThresholdBasedRebalance`). -/
inductive RebalanceRule where
  | timeBased (frequency : String)
  | thresholdBased (threshold : ℚ)
deriving DecidableEq

/-- The fields shared by every `RebalanceStrategy`
(rebalance_strategies.py, lines 13-21), plus the subclass tag. -/
structure RebalanceStrategy where
  target_allocation : Alloc
  transaction_cost : ℚ
  rule : RebalanceRule
  last_rebalance_date : Option ℤ
deriving DecidableEq

/-- `TimeBasedRebalance.__init__`: `last_rebalance_date` starts unset. -/
def mkTimeBased (target_allocation : Alloc) (frequency : String)
    (transaction_cost : ℚ) : RebalanceStrategy :=
  { target_allocation := target_allocation
    transaction_cost := transaction_cost
    rule := RebalanceRule.timeBased frequency
    last_rebalance_date := none }

/-- `ThresholdBasedRebalance.__init__`: `last_rebalance_date` starts unset. -/
def mkThresholdBased (target_allocation : Alloc) (threshold : ℚ)
    (transaction_cost : ℚ) : RebalanceStrategy :=
  { target_allocation := target_allocation
    transaction_cost := transaction_cost
    rule := RebalanceRule.thresholdBased threshold
    last_rebalance_date := none }

/-- `self.frequency_days.get(self.frequency, 365)`: the dict
`{"monthly": 30, "quarterly": 90, "annual": 365}` looked up with default
365 (rebalance_strategies.py, lines 114-118 and 128). -/
def frequencyDays (frequency : String) : ℤ :=
  if frequency = "monthly" then 30
  else if frequency = "quarterly" then 90
  else 365

/-- `should_rebalance` of the two subclasses (rebalance_strategies.py,
lines 120-132 and 148-157).  The state mutation of `TimeBasedRebalance`
is modelled by returning the updated strategy object. -/
def should_rebalance (s : RebalanceStrategy) (current_allocation : Alloc)
    (date : ℤ) (portfolio_value : ℚ) : Bool × RebalanceStrategy :=
  match s.rule with
  | RebalanceRule.timeBased frequency =>
    match s.last_rebalance_date with
    | none => (true, { s with last_rebalance_date := some date })
    | some last =>
      if frequencyDays frequency ≤ date - last then
        (true, { s with last_rebalance_date := some date })
      else
        (false, s)
  | RebalanceRule.thresholdBased threshold =>
    (s.target_allocation.any
      (fun q => decide (threshold < |getValue current_allocation q.1 - q.2|)),
     s)

/-- `RebalanceStrategy.calculate_rebalance_cost` (rebalance_strategies.py,
lines 37-57). -/
def calculate_rebalance_cost (s : RebalanceStrategy)
    (target_allocation current_allocation : Alloc)
    (portfolio_value : ℚ) : ℚ :=
  let total_change :=
    (target_allocation.map
      (fun q => |q.2 - getValue current_allocation q.1|)).sum
  portfolio_value * (total_change / 2) * s.transaction_cost

/-- `RebalanceStrategy.rebalance` (rebalance_strategies.py, lines 59-97).
The first `new_values` computed in the source is dead code (it is
overwritten before use), so only the final assignment is modelled. -/
def rebalance (s : RebalanceStrategy) (current_values : Alloc)
    (portfolio_value : ℚ) : Alloc × ℚ :=
  let current_allocation := current_values.map
    (fun q => (q.1, if 0 < portfolio_value then q.2 / portfolio_value else 0))
  let cost := calculate_rebalance_cost s s.target_allocation
    current_allocation portfolio_value
  let remaining_value := portfolio_value - cost
  (s.target_allocation.map (fun q => (q.1, remaining_value * q.2)), cost)

/-- Maximum absolute deviation |current_weight - target_weight| across the
target allocation's assets (0 for an empty allocation). -/
def maxAbsDeviation (target current : Alloc) : ℚ :=
  (target.map (fun q => |getValue current q.1 - q.2|)).foldr max 0

/-- The per-iteration seed expression of `monte_carlo_simulation`
(simulation.py, line 309): `random_seed + i if random_seed else None`.
Python truthiness makes both `None` and `0` fall to the `None` branch. -/
def seedForIteration (random_seed : Option ℤ) (i : ℕ) : Option ℤ :=
  match random_seed with
  | none => none
  | some s => if s ≠ 0 then some (s + (i : ℤ)) else none

/-- The parameters of `simulate_portfolio_path` other than the strategy and
the generated return rows (simulation.py, lines 92-106).
`monthly_inflation_factor` stands for the real number
(1 + inflation_rate) ** (1/12), so `(1 + monthly_inflation)` in the source
is this factor and the cumulative factor
(1 + inflation_rate) ** ((month+1)/12) is this factor to the (month+1). -/
structure SimParams where
  initial_capital : ℚ
  allocation : Alloc
  withdrawal_amount : ℚ
  monthly_inflation_factor : ℚ
  apply_inflation : Bool
  periodic_contribution : ℚ
  contribution_enabled : Bool
  thirteenth_payment_months : List ℤ
  thirteenth_payment_amount : ℚ
  thirteenth_payment_enabled : Bool
deriving DecidableEq

/-- One record of the `history` list (simulation.py, lines 235-245).
`asset_values` holds the `new_asset_values` dict itself; the source spreads
it into one column per allocation key via `new_asset_values.get(asset, 0)`,
which is the `getValue` projection of this field. -/
structure HistoryRow where
  month : ℕ
  portfolio_value : ℚ
  withdrawal : ℚ
  base_withdrawal : ℚ
  contribution : ℚ
  total_withdrawals : ℚ
  total_contributions : ℚ
  total_rebalance_costs : ℚ
  asset_values : Alloc
deriving DecidableEq

/-- The `metrics` dict returned by `simulate_portfolio_path`
(simulation.py, lines 250-261). -/
structure PathMetrics where
  final_value : ℚ
  total_withdrawals : ℚ
  total_contributions : ℚ
  net_flow : ℚ
  total_rebalance_costs : ℚ
  months_survived : ℕ
  survived_full_period : Bool
  total_return : ℚ
deriving DecidableEq

/-- The local variables of the monthly loop of `simulate_portfolio_path`. -/
structure LoopState where
  month : ℕ
  asset_values : Alloc
  portfolio_value : ℚ
  withdrawal : ℚ
  total_withdrawals : ℚ
  total_contributions : ℚ
  total_rebalance_costs : ℚ
  strategy : RebalanceStrategy
  current_date : ℤ
  history : List HistoryRow
deriving DecidableEq

/-- What a run of `simulate_portfolio_path` produces: the history and the
metrics, plus the final asset values, the final state of the (mutated)
strategy object, and whether a ZeroDivisionError occurred. -/
structure SimResult where
  history : List HistoryRow
  metrics : PathMetrics
  asset_values : Alloc
  strategy : RebalanceStrategy
  fault : Bool
deriving DecidableEq

/-- The contribution block of `simulate_portfolio_path` (simulation.py,
lines 177-189).  Returns the updated asset values, the updated portfolio
value, `contribution_this_month`, and whether a ZeroDivisionError occurred.
The divisor of the redistribution is `portfolio_value - contribution`,
i.e. the pre-contribution total; when that is zero and the dict is
non-empty, the first division raises in Python, recorded here as a fault. -/
def contributionStep (contribution_enabled : Bool)
    (periodic_contribution : ℚ) (values : Alloc) (portfolio_value : ℚ) :
    Alloc × ℚ × ℚ × Bool :=
  if contribution_enabled then
    let c := periodic_contribution
    if c ≠ 0 then
      let pv := portfolio_value + c
      if 0 < pv then
        if portfolio_value = 0 ∧ values ≠ [] then
          (values, pv, c, true)
        else
          (values.map (fun q => (q.1, q.2 / (pv - c) * pv)), pv, c, false)
      else
        (values, pv, c, false)
    else
      (values, portfolio_value, c, false)
  else
    (values, portfolio_value, 0, false)

/-- Outcome of one iteration of the monthly loop: continue to the next
month, break out with ruin at month index `m`, or abort on a
ZeroDivisionError. -/
inductive StepResult where
  | next (st : LoopState)
  | ruined (st : LoopState) (m : ℕ)
  | failed (st : LoopState)
deriving DecidableEq

/-- The rebalance check of the monthly loop (simulation.py, lines
217-229): compute the current weights from the post-withdrawal values
`values2` and the post-withdrawal portfolio value `pv2`, ask the strategy
whether to rebalance, and apply `rebalance` if so.  Returns the resulting
asset values, portfolio value, cumulative rebalance costs, and the
(possibly mutated) strategy object. -/
def rebalanceBlock (st : LoopState) (values2 : Alloc) (pv2 : ℚ) :
    Alloc × ℚ × ℚ × RebalanceStrategy :=
  let current_allocation := values2.map
    (fun q => (q.1, if 0 < pv2 then q.2 / pv2 else 0))
  match should_rebalance st.strategy current_allocation
      st.current_date pv2 with
  | (go, strategy1) =>
    if go then
      match rebalance strategy1 values2 pv2 with
      | (nv, cost) =>
        (nv, pv2 - cost, st.total_rebalance_costs + cost, strategy1)
    else (values2, pv2, st.total_rebalance_costs, strategy1)

/-- The monthly loop of `simulate_portfolio_path` from the ruin check on
(simulation.py, lines 203-248), given the state after the contribution
block: the base withdrawal `withdrawal` after inflation adjustment, the
asset values `values1` and the portfolio value `pv1` after returns and
contribution, this month's contribution, and the total withdrawal
`monthly_withdrawal` of the month (base plus thirteenth payment). -/
def withdrawRebalanceStep (p : SimParams) (st : LoopState)
    (withdrawal : ℚ) (values1 : Alloc) (pv1 : ℚ)
    (contribution_this_month : ℚ) (monthly_withdrawal : ℚ) : StepResult :=
  let month := st.month
  let total_contributions := st.total_contributions + contribution_this_month
  -- ruin check / withdrawal
  if monthly_withdrawal ≤ pv1 then
    let pv2 := pv1 - monthly_withdrawal
    let total_withdrawals := st.total_withdrawals + monthly_withdrawal
    -- each value *= 1 - mw / (pv2 + mw); the divisor pv2 + mw is the
    -- pre-withdrawal total pv1, unguarded in the source
    if pv1 = 0 ∧ values1 ≠ [] then
      StepResult.failed { st with
        asset_values := values1, portfolio_value := pv2,
        withdrawal := withdrawal,
        total_contributions := total_contributions,
        total_withdrawals := total_withdrawals }
    else
    let values2 := values1.map (fun q =>
      (q.1, q.2 * (1 - monthly_withdrawal / (pv2 + monthly_withdrawal))))
    -- rebalance check
    match rebalanceBlock st values2 pv2 with
    | (values3, pv3, total_rebalance_costs, strategy1) =>
      let row : HistoryRow :=
        { month := month + 1
          portfolio_value := pv3
          withdrawal := monthly_withdrawal
          base_withdrawal := withdrawal
          contribution := contribution_this_month
          total_withdrawals := total_withdrawals
          total_contributions := total_contributions
          total_rebalance_costs := total_rebalance_costs
          asset_values := values3 }
      StepResult.next
        { month := month + 1
          asset_values := values3
          portfolio_value := pv3
          withdrawal := withdrawal
          total_withdrawals := total_withdrawals
          total_contributions := total_contributions
          total_rebalance_costs := total_rebalance_costs
          strategy := strategy1
          current_date := st.current_date + 30
          history := st.history ++ [row] }
  else
    -- capital exhausted: months_survived = month, zero every asset, break
    StepResult.ruined
      { st with
        asset_values := values1.map (fun q => (q.1, 0)),
        portfolio_value := 0,
        withdrawal := withdrawal,
        total_contributions := total_contributions }
      month

/-- This month's total withdrawal (simulation.py, lines 191-201): the
inflation-adjusted base withdrawal plus, when the thirteenth payment is
enabled and the 0-indexed month is in the trigger list, the thirteenth
amount scaled by the cumulative inflation factor. -/
def monthlyWithdrawalOf (p : SimParams) (month : ℕ) (withdrawal : ℚ) : ℚ :=
  if p.thirteenth_payment_enabled ∧
      ((p.thirteenth_payment_months.map (fun x => x - 1)).contains
        (month : ℤ)) then
    withdrawal +
      (if p.apply_inflation ∧ 0 < month then
        p.thirteenth_payment_amount *
          p.monthly_inflation_factor ^ (month + 1)
      else p.thirteenth_payment_amount)
  else withdrawal

/-- One iteration of the monthly loop of `simulate_portfolio_path`
(simulation.py, lines 155-248), in the source's statement order:
inflation adjustment of the base withdrawal, return application,
contribution block, thirteenth payment, then `withdrawRebalanceStep` for
the rest of the month. -/
def monthStep (p : SimParams) (month_returns : Alloc) (st : LoopState) :
    StepResult :=
  -- inflation adjustment of the running base withdrawal (skipped at m=0)
  let withdrawal :=
    if p.apply_inflation ∧ 0 < st.month then
      st.withdrawal * p.monthly_inflation_factor
    else st.withdrawal
  -- apply returns: value *= exp(log_return); a missing key keeps the value
  let returned_values := st.asset_values.map (fun q =>
    match List.lookup q.1 month_returns with
    | some factor => (q.1, q.2 * factor)
    | none => q)
  let portfolio_value := valuesSum returned_values
  -- contribution block
  match contributionStep p.contribution_enabled p.periodic_contribution
      returned_values portfolio_value with
  | (values1, pv1, contribution_this_month, cfault) =>
    if cfault then
      StepResult.failed { st with
        asset_values := values1, portfolio_value := pv1,
        withdrawal := withdrawal,
        total_contributions := st.total_contributions + contribution_this_month }
    else
      withdrawRebalanceStep p st withdrawal values1 pv1
        contribution_this_month (monthlyWithdrawalOf p st.month withdrawal)

/-- The monthly loop: fold `monthStep` over the return rows, stopping at
ruin (`some m`) or at a ZeroDivisionError (flag `true`). -/
def runMonths (p : SimParams) :
    List Alloc → LoopState → LoopState × Option ℕ × Bool
  | [], st => (st, none, false)
  | month_returns :: rest, st =>
    match monthStep p month_returns st with
    | StepResult.next st1 => runMonths p rest st1
    | StepResult.ruined st1 m => (st1, some m, false)
    | StepResult.failed st1 => (st1, none, true)

/-- `simulate_portfolio_path` (simulation.py, lines 92-263).
`monthly_returns` rows carry multiplicative factors exp(log_return). -/
def simulate_portfolio_path (p : SimParams)
    (rebalance_strategy : RebalanceStrategy)
    (monthly_returns : List Alloc) : SimResult :=
  let n_months := monthly_returns.length
  let st0 : LoopState :=
    { month := 0
      asset_values := p.allocation.map
        (fun q => (q.1, p.initial_capital * q.2))
      portfolio_value := p.initial_capital
      withdrawal := p.withdrawal_amount
      total_withdrawals := 0
      total_contributions := 0
      total_rebalance_costs := 0
      strategy := rebalance_strategy
      current_date := 0
      history := [] }
  match runMonths p monthly_returns st0 with
  | (st, ruin, fault) =>
    let months_survived := match ruin with
      | some m => m
      | none => n_months
    { history := st.history
      metrics :=
        { final_value := st.portfolio_value
          total_withdrawals := st.total_withdrawals
          total_contributions := st.total_contributions
          net_flow := st.total_contributions - st.total_withdrawals
          total_rebalance_costs := st.total_rebalance_costs
          months_survived := months_survived
          survived_full_period := months_survived = n_months
          total_return :=
            if 0 < p.initial_capital then
              (st.portfolio_value - p.initial_capital) / p.initial_capital
            else 0 }
      asset_values := st.asset_values
      strategy := st.strategy
      fault := fault }

/-- The iteration loop of `monte_carlo_simulation` (simulation.py, lines
301-331).  The Python function receives a single strategy object and
passes that same object to `simulate_portfolio_path` in every iteration;
`should_rebalance` mutates it in place, so the strategy state left by
iteration i is the strategy state entering iteration i+1 — modelled by
threading the returned strategy.  `gen` abstracts
`generate_monthly_returns` (a numpy sampler external to the core): given
the per-iteration seed it returns the rows of return factors. -/
def mcRun (p : SimParams) (gen : Option ℤ → List Alloc)
    (random_seed : Option ℤ) :
    ℕ → ℕ → RebalanceStrategy → List SimResult
  | 0, _, _ => []
  | Nat.succ k, i, strategy =>
    let res := simulate_portfolio_path p strategy
      (gen (seedForIteration random_seed i))
    res :: mcRun p gen random_seed k (i + 1) res.strategy

/-- `monte_carlo_simulation` (simulation.py, lines 266-335): returns the
list of histories and the list of per-iteration metrics rows. -/
def monte_carlo_simulation (p : SimParams)
    (rebalance_strategy : RebalanceStrategy)
    (gen : Option ℤ → List Alloc) (random_seed : Option ℤ)
    (n_iterations : ℕ) : List (List HistoryRow) × List PathMetrics :=
  let runs := mcRun p gen random_seed n_iterations 0 rebalance_strategy
  (runs.map SimResult.history, runs.map SimResult.metrics)

/-- The strategy object state observed at the start of each iteration of
`monte_carlo_simulation`, in order. -/
def strategiesUsed (p : SimParams) (gen : Option ℤ → List Alloc)
    (random_seed : Option ℤ) :
    ℕ → ℕ → RebalanceStrategy → List RebalanceStrategy
  | 0, _, _ => []
  | Nat.succ k, i, strategy =>
    strategy :: strategiesUsed p gen random_seed k (i + 1)
      (simulate_portfolio_path p strategy
        (gen (seedForIteration random_seed i))).strategy

/-- Modelled from the spec: the contribution step as the specification
words it — add the signed amount to the total, then redistribute the new
total across assets proportionally to each asset's pre-contribution share
of the post-return total, guarding a zero pre-contribution total by
allocating the new total by target weights instead.  Used only for
comparison against `contributionStep`, the step the source implements. -/
def contributionStepSpec (target : Alloc) (periodic_contribution : ℚ)
    (values : Alloc) (portfolio_value : ℚ) : Alloc × ℚ :=
  let total := portfolio_value + periodic_contribution
  if portfolio_value = 0 then
    (target.map (fun q => (q.1, total * q.2)), total)
  else
    (values.map (fun q => (q.1, q.2 / portfolio_value * total)), total)

/-- The cumulative rebalance cost recorded in the most recent history row
(0 before any month has been recorded). -/
def lastRecordedCosts (history : List HistoryRow) : ℚ :=
  match history.getLast? with
  | none => 0
  | some row => row.total_rebalance_costs

/-- The spec's ruin-arithmetic scenario: initial capital 100000,
allocation stocks 0.6 / bonds 0.4, withdrawal 2000 per month, inflation
adjustment off, contributions off. -/
def ruinParams : SimParams :=
  { initial_capital := 100000
    allocation := [("stocks", 3/5), ("bonds", 2/5)]
    withdrawal_amount := 2000
    monthly_inflation_factor := 1
    apply_inflation := false
    periodic_contribution := 0
    contribution_enabled := false
    thirteenth_payment_months := []
    thirteenth_payment_amount := 0
    thirteenth_payment_enabled := false }

/-- A threshold strategy with zero transaction cost for the ruin
scenario. -/
def ruinStrategy : RebalanceStrategy :=
  mkThresholdBased [("stocks", 3/5), ("bonds", 2/5)] (1/20) 0

/-- 60 months of zero log-returns: every multiplicative factor is
exp(0) = 1. -/
def ruinRows : List Alloc :=
  List.replicate 60 [("stocks", 1), ("bonds", 1)]

/-- A two-iteration Monte Carlo scenario used to observe strategy-state
leakage: no withdrawals, no inflation, no contributions. -/
def leakParams : SimParams :=
  { initial_capital := 100000
    allocation := [("stocks", 3/5), ("bonds", 2/5)]
    withdrawal_amount := 0
    monthly_inflation_factor := 1
    apply_inflation := false
    periodic_contribution := 0
    contribution_enabled := false
    thirteenth_payment_months := []
    thirteenth_payment_amount := 0
    thirteenth_payment_enabled := false }

/-- A monthly time-based strategy with transaction cost 0.002. -/
def leakStrategy : RebalanceStrategy :=
  mkTimeBased [("stocks", 3/5), ("bonds", 2/5)] "monthly" (1/500)

/-- A return generator producing the same single month of returns for
every seed: stocks double, bonds unchanged. -/
def leakGen : Option ℤ → List Alloc :=
  fun _ => [[("stocks", 2), ("bonds", 1)]]

/-- A scenario whose contribution exactly cancels the portfolio: initial
capital 100, monthly contribution -100, withdrawal 0. -/
def faultParams : SimParams :=
  { initial_capital := 100
    allocation := [("stocks", 3/5), ("bonds", 2/5)]
    withdrawal_amount := 0
    monthly_inflation_factor := 1
    apply_inflation := false
    periodic_contribution := -100
    contribution_enabled := true
    thirteenth_payment_months := []
    thirteenth_payment_amount := 0
    thirteenth_payment_enabled := false }

/-- A small two-month scenario that ends in ruin: capital 10, withdrawal
6 per month, zero returns. -/
def smallRuinParams : SimParams :=
  { initial_capital := 10
    allocation := [("stocks", 3/5), ("bonds", 2/5)]
    withdrawal_amount := 6
    monthly_inflation_factor := 1
    apply_inflation := false
    periodic_contribution := 0
    contribution_enabled := false
    thirteenth_payment_months := []
    thirteenth_payment_amount := 0
    thirteenth_payment_enabled := false }

/-- Two months of return rows where stocks double and bonds are flat. -/
def smallRows : List Alloc :=
  List.replicate 2 [("stocks", 2), ("bonds", 1)]

/-- Two months of zero log-returns (every factor 1). -/
def smallFlatRows : List Alloc :=
  List.replicate 2 [("stocks", 1), ("bonds", 1)]

/- ------------------------------------------------------------------ -/
/- Generic lemmas about the association-list model.                   -/
/- ------------------------------------------------------------------ -/

theorem lookup_map_snd (g : ℚ → ℚ) (l : Alloc) (k : String) :
    List.lookup k (l.map (fun q => (q.1, g q.2))) =
      (List.lookup k l).map g := by
  induction l with
  | nil => rfl
  | cons q l ih =>
    rcases q with ⟨a, v⟩
    by_cases h : k == a
    · simp [List.lookup_cons, h]
    · simp only [List.map_cons, List.lookup_cons]
      rw [Bool.not_eq_true] at h
      simp [h, ih]

theorem getValue_map_snd (g : ℚ → ℚ) (hg : g 0 = 0) (l : Alloc)
    (k : String) :
    getValue (l.map (fun q => (q.1, g q.2))) k = g (getValue l k) := by
  unfold getValue
  rw [lookup_map_snd]
  cases List.lookup k l with
  | none => simp [hg]
  | some v => simp

theorem valuesSum_map_mul_right (l : Alloc) (c : ℚ) :
    valuesSum (l.map (fun q => (q.1, q.2 * c))) = valuesSum l * c := by
  unfold valuesSum
  rw [List.map_map]
  have : (Prod.snd ∘ fun q : String × ℚ => (q.1, q.2 * c)) =
      fun q : String × ℚ => q.2 * c := rfl
  rw [this]
  exact List.sum_map_mul_right l (fun q => q.2) c

theorem valuesSum_map_mul_left (l : Alloc) (c : ℚ) :
    valuesSum (l.map (fun q => (q.1, c * q.2))) = c * valuesSum l := by
  unfold valuesSum
  rw [List.map_map]
  have : (Prod.snd ∘ fun q : String × ℚ => (q.1, c * q.2)) =
      fun q : String × ℚ => c * q.2 := rfl
  rw [this]
  exact List.sum_map_mul_left l (fun q => q.2) c

theorem valuesSum_map_zero (l : Alloc) :
    valuesSum (l.map (fun q => (q.1, (0:ℚ)))) = 0 := by
  unfold valuesSum
  rw [List.map_map]
  have : (Prod.snd ∘ fun q : String × ℚ => (q.1, (0:ℚ))) =
      fun _ : String × ℚ => (0:ℚ) := rfl
  rw [this]
  simp

theorem lt_foldr_max (t a : ℚ) (l : List ℚ) :
    t < l.foldr max a ↔ t < a ∨ ∃ x ∈ l, t < x := by
  induction l with
  | nil => simp
  | cons x l ih =>
    simp only [List.foldr_cons, lt_max_iff, ih, List.mem_cons]
    constructor
    · rintro (h | h | ⟨y, hy, hty⟩)
      · exact Or.inr ⟨x, Or.inl rfl, h⟩
      · exact Or.inl h
      · exact Or.inr ⟨y, Or.inr hy, hty⟩
    · rintro (h | ⟨y, hy | hy, hty⟩)
      · exact Or.inr (Or.inl h)
      · exact Or.inl (hy ▸ hty)
      · exact Or.inr (Or.inr ⟨y, hy, hty⟩)

/- ------------------------------------------------------------------ -/
/- Claim C1: threshold boundary semantics.                            -/
/- ------------------------------------------------------------------ -/

/-- Claim C1, counterexample: with threshold 0.05 and current allocation
stocks 0.65 / bonds 0.35 against target 0.6 / 0.4, the maximum absolute
deviation is exactly the threshold, yet `should_rebalance` returns false;
the claimed inclusive (≥) boundary is wrong, the source compares with a
strict >. -/
theorem threshold_boundary_counterexample :
    maxAbsDeviation [("stocks", 3/5), ("bonds", 2/5)]
        [("stocks", 13/20), ("bonds", 7/20)] = 1/20 ∧
    (should_rebalance
        (mkThresholdBased [("stocks", 3/5), ("bonds", 2/5)] (1/20) (1/500))
        [("stocks", 13/20), ("bonds", 7/20)] 0 100000).1 = false := by
  with_unfolding_all decide

/-- Claim C1, amended: for a non-negative threshold,
`ThresholdBasedRebalance.should_rebalance` returns true iff the maximum
absolute deviation across the target allocation's assets is strictly
greater than the threshold; a deviation exactly equal to the threshold
does not trigger a rebalance. -/
theorem threshold_strict_spec (target current : Alloc) (threshold tc : ℚ)
    (date : ℤ) (pv : ℚ) (ht : 0 ≤ threshold) :
    ((should_rebalance (mkThresholdBased target threshold tc)
        current date pv).1 = true) ↔
      threshold < maxAbsDeviation target current := by
  unfold should_rebalance mkThresholdBased maxAbsDeviation
  simp only [List.any_eq_true, decide_eq_true_eq, lt_foldr_max]
  constructor
  · rintro ⟨q, hq, hlt⟩
    exact Or.inr ⟨|getValue current q.1 - q.2|, List.mem_map_of_mem _ hq, hlt⟩
  · rintro (h | ⟨x, hx, hlt⟩)
    · exact absurd h (not_lt.mpr ht)
    · rcases List.mem_map.mp hx with ⟨q, hq, rfl⟩
      exact ⟨q, hq, hlt⟩

/-- Witness for `threshold_strict_spec` at a concrete input. -/
theorem threshold_strict_spec_witness :
    ((should_rebalance
        (mkThresholdBased [("stocks", 3/5), ("bonds", 2/5)] (1/20) (1/500))
        [("stocks", 7/10), ("bonds", 3/10)] 0 100000).1 = true) ↔
      (1/20 : ℚ) < maxAbsDeviation [("stocks", 3/5), ("bonds", 2/5)]
        [("stocks", 7/10), ("bonds", 3/10)] :=
  threshold_strict_spec [("stocks", 3/5), ("bonds", 2/5)]
    [("stocks", 7/10), ("bonds", 3/10)] (1/20) (1/500) 0 100000
    (by norm_num)

/- ------------------------------------------------------------------ -/
/- Claim C7: time-based rebalance semantics.                          -/
/- ------------------------------------------------------------------ -/

/-- Claim C7: for a `TimeBasedRebalance` strategy, the first check always
returns true and records the supplied date; a later check returns true iff
at least the frequency's day count (monthly=30, quarterly=90, annual=365)
has elapsed since the recorded reference date, and exactly the
true-returning calls move the reference date to the supplied date. -/
theorem time_based_spec (s : RebalanceStrategy) (frequency : String)
    (current_allocation : Alloc) (date : ℤ) (portfolio_value : ℚ)
    (hr : s.rule = RebalanceRule.timeBased frequency) :
    (s.last_rebalance_date = none →
      should_rebalance s current_allocation date portfolio_value =
        (true, { s with last_rebalance_date := some date })) ∧
    (∀ last, s.last_rebalance_date = some last →
      (((should_rebalance s current_allocation date portfolio_value).1
          = true) ↔ frequencyDays frequency ≤ date - last) ∧
      (should_rebalance s current_allocation date portfolio_value).2 =
        (if frequencyDays frequency ≤ date - last then
          { s with last_rebalance_date := some date }
        else s)) ∧
    frequencyDays "monthly" = 30 ∧ frequencyDays "quarterly" = 90 ∧
    frequencyDays "annual" = 365 := by
  refine ⟨?_, ?_, by decide, by decide, by decide⟩
  · intro h
    simp [should_rebalance, hr, h]
  · intro last h
    constructor
    · by_cases hd : frequencyDays frequency ≤ date - last <;>
        simp [should_rebalance, hr, h, hd]
    · by_cases hd : frequencyDays frequency ≤ date - last <;>
        simp [should_rebalance, hr, h, hd]

/-- Witness for `time_based_spec` at a concrete strategy. -/
theorem time_based_spec_witness :
    ((mkTimeBased [("stocks", 1)] "monthly" (1/500)).last_rebalance_date
        = none →
      should_rebalance (mkTimeBased [("stocks", 1)] "monthly" (1/500))
          [] 5 0 =
        (true, { mkTimeBased [("stocks", 1)] "monthly" (1/500) with
          last_rebalance_date := some 5 })) ∧
    (∀ last,
      (mkTimeBased [("stocks", 1)] "monthly" (1/500)).last_rebalance_date
        = some last →
      (((should_rebalance (mkTimeBased [("stocks", 1)] "monthly" (1/500))
          [] 5 0).1 = true) ↔ frequencyDays "monthly" ≤ 5 - last) ∧
      (should_rebalance (mkTimeBased [("stocks", 1)] "monthly" (1/500))
          [] 5 0).2 =
        (if frequencyDays "monthly" ≤ 5 - last then
          { mkTimeBased [("stocks", 1)] "monthly" (1/500) with
            last_rebalance_date := some 5 }
        else mkTimeBased [("stocks", 1)] "monthly" (1/500))) ∧
    frequencyDays "monthly" = 30 ∧ frequencyDays "quarterly" = 90 ∧
    frequencyDays "annual" = 365 :=
  time_based_spec (mkTimeBased [("stocks", 1)] "monthly" (1/500))
    "monthly" [] 5 0 rfl

/- ------------------------------------------------------------------ -/
/- Claim C10: unrecognized frequency falls back to 365 days.          -/
/- ------------------------------------------------------------------ -/

/-- Claim C10: a `TimeBasedRebalance` built with a frequency outside
monthly/quarterly/annual raises no error; `frequency_days.get` falls back
to 365, so every check behaves exactly as with frequency "annual" (same
boolean result and same reference-date update). -/
theorem unknown_frequency_annual (s : RebalanceStrategy)
    (frequency : String) (hr : s.rule = RebalanceRule.timeBased frequency)
    (hf : frequency ∉ (["monthly", "quarterly", "annual"] : List String))
    (current_allocation : Alloc) (date : ℤ) (portfolio_value : ℚ) :
    frequencyDays frequency = 365 ∧
    (should_rebalance s current_allocation date portfolio_value).1 =
      (should_rebalance { s with rule := RebalanceRule.timeBased "annual" }
        current_allocation date portfolio_value).1 ∧
    (should_rebalance s current_allocation date
        portfolio_value).2.last_rebalance_date =
      (should_rebalance { s with rule := RebalanceRule.timeBased "annual" }
        current_allocation date portfolio_value).2.last_rebalance_date := by
  simp only [List.mem_cons, List.not_mem_nil, or_false, not_or] at hf
  obtain ⟨h1, h2, _⟩ := hf
  have hdays : frequencyDays frequency = 365 := by
    simp [frequencyDays, h1, h2]
  refine ⟨hdays, ?_, ?_⟩ <;>
  · cases hl : s.last_rebalance_date with
    | none => simp [should_rebalance, hr, hl]
    | some last =>
      have h365 : frequencyDays "annual" = 365 := by decide
      by_cases hd : (365 : ℤ) ≤ date - last <;>
        simp [should_rebalance, hr, hl, hdays, h365, hd]

/-- Witness for `unknown_frequency_annual` with frequency "weekly". -/
theorem unknown_frequency_annual_witness :
    frequencyDays "weekly" = 365 ∧
    (should_rebalance (mkTimeBased [("stocks", 1)] "weekly" (1/500))
        [] 7 0).1 =
      (should_rebalance
        { mkTimeBased [("stocks", 1)] "weekly" (1/500) with
          rule := RebalanceRule.timeBased "annual" } [] 7 0).1 ∧
    (should_rebalance (mkTimeBased [("stocks", 1)] "weekly" (1/500))
        [] 7 0).2.last_rebalance_date =
      (should_rebalance
        { mkTimeBased [("stocks", 1)] "weekly" (1/500) with
          rule := RebalanceRule.timeBased "annual" }
        [] 7 0).2.last_rebalance_date :=
  unknown_frequency_annual (mkTimeBased [("stocks", 1)] "weekly" (1/500))
    "weekly" rfl (by decide) [] 7 0

/- ------------------------------------------------------------------ -/
/- Claim C9: per-iteration seed derivation.                           -/
/- ------------------------------------------------------------------ -/

/-- Claim C9, counterexample: with base seed 0 the engine passes no seed
at all (Python truthiness treats 0 like None), so the claimed
"seed = base_seed + i whenever base_seed is set" fails at base seed 0. -/
theorem seed_zero_counterexample :
    seedForIteration (some 0) 1 = none ∧
    some ((0:ℤ) + 1) ≠ (none : Option ℤ) := by
  decide

/-- Claim C9, amended: iteration i uses seed base_seed + i whenever the
base seed is set and non-zero; no seed is used when the base seed is
unset, and also when it equals 0. -/
theorem seed_derivation (b : ℤ) (i : ℕ) (hb : b ≠ 0) :
    seedForIteration (some b) i = some (b + (i:ℤ)) ∧
    seedForIteration none i = none ∧
    seedForIteration (some 0) i = none := by
  simp [seedForIteration, hb]

/-- Witness for `seed_derivation` at base seed 42 and iteration 3. -/
theorem seed_derivation_witness :
    seedForIteration (some 42) 3 = some (42 + (3:ℤ)) ∧
    seedForIteration none 3 = none ∧
    seedForIteration (some 0) 3 = none :=
  seed_derivation 42 3 (by decide)

/- ------------------------------------------------------------------ -/
/- Claim C5: the contribution step.                                   -/
/- ------------------------------------------------------------------ -/

/-- Claim C5, counterexample: with asset values stocks 5 / bonds 0 and a
contribution of -5, the claimed behavior (pre-contribution total 5 is not
zero, so redistribute the new total 0 proportionally: every asset becomes
0) differs from the source, whose guard tests the post-contribution total
`portfolio_value > 0` and leaves the asset values untouched when it
fails.  There is also no target-weight fallback in the source. -/
theorem contribution_guard_counterexample :
    (contributionStep true (-5) [("stocks", 5), ("bonds", 0)] 5).1 =
      [("stocks", 5), ("bonds", 0)] ∧
    (contributionStepSpec [("stocks", 3/5), ("bonds", 2/5)] (-5)
        [("stocks", 5), ("bonds", 0)] 5).1 =
      [("stocks", 0), ("bonds", 0)] ∧
    (contributionStep true (-5) [("stocks", 5), ("bonds", 0)] 5).1 ≠
      (contributionStepSpec [("stocks", 3/5), ("bonds", 2/5)] (-5)
        [("stocks", 5), ("bonds", 0)] 5).1 := by
  with_unfolding_all decide

/-- Claim C5, amended: with contributions enabled and a non-zero monthly
amount c, the source adds c to the total; when the post-contribution
total is positive (and the pre-contribution total, the actual divisor, is
non-zero) it rescales every asset by (new total)/(pre total), which both
sums to the new total and preserves each asset's proportional share; when
the post-contribution total is not positive the asset values are left
unchanged; and a zero pre-contribution total with a positive
post-contribution total is an unguarded division by zero. -/
theorem contribution_step_behavior (c : ℚ) (values : Alloc)
    (portfolio_value : ℚ) (hc : c ≠ 0)
    (hpv : valuesSum values = portfolio_value) :
    (portfolio_value + c ≤ 0 →
      contributionStep true c values portfolio_value =
        (values, portfolio_value + c, c, false)) ∧
    (0 < portfolio_value + c → portfolio_value = 0 → values ≠ [] →
      (contributionStep true c values portfolio_value).2.2.2 = true) ∧
    (0 < portfolio_value + c → portfolio_value ≠ 0 →
      (contributionStep true c values portfolio_value).1 =
        values.map (fun q =>
          (q.1, q.2 * ((portfolio_value + c) / portfolio_value))) ∧
      valuesSum (contributionStep true c values portfolio_value).1 =
        portfolio_value + c ∧
      (contributionStep true c values portfolio_value).2.2.2 = false) := by
  refine ⟨?_, ?_, ?_⟩
  · intro h
    simp [contributionStep, hc, not_lt.mpr h]
  · intro h h0 hne
    subst h0
    rw [zero_add] at h
    simp [contributionStep, hc, h, hne]
  · intro h h0
    have hguard : ¬(portfolio_value = 0 ∧ values ≠ []) := by
      intro hg
      exact h0 hg.1
    have hstep : (contributionStep true c values portfolio_value).1 =
        values.map (fun q =>
          (q.1, q.2 / portfolio_value * (portfolio_value + c))) := by
      simp [contributionStep, hc, h, hguard]
    have hmap : (fun q : String × ℚ =>
        (q.1, q.2 / portfolio_value * (portfolio_value + c))) =
        (fun q : String × ℚ =>
          (q.1, q.2 * ((portfolio_value + c) / portfolio_value))) := by
      funext q
      rw [div_mul_eq_mul_div, mul_div_assoc]
    refine ⟨?_, ?_, ?_⟩
    · rw [hstep, hmap]
    · rw [hstep, hmap, valuesSum_map_mul_right, hpv]
      field_simp
    · simp [contributionStep, hc, h, hguard]

/-- Witness for `contribution_step_behavior` at a concrete input. -/
theorem contribution_step_behavior_witness :
    ((2:ℚ) + 3 ≤ 0 →
      contributionStep true 3 [("stocks", 2)] 2 =
        ([("stocks", 2)], (2:ℚ) + 3, 3, false)) ∧
    (0 < (2:ℚ) + 3 → (2:ℚ) = 0 → ([("stocks", (2:ℚ))] : Alloc) ≠ [] →
      (contributionStep true 3 [("stocks", 2)] 2).2.2.2 = true) ∧
    (0 < (2:ℚ) + 3 → (2:ℚ) ≠ 0 →
      (contributionStep true 3 [("stocks", 2)] 2).1 =
        ([("stocks", (2:ℚ))] : Alloc).map (fun q =>
          (q.1, q.2 * (((2:ℚ) + 3) / 2))) ∧
      valuesSum (contributionStep true 3 [("stocks", 2)] 2).1 =
        (2:ℚ) + 3 ∧
      (contributionStep true 3 [("stocks", 2)] 2).2.2.2 = false) :=
  contribution_step_behavior 3 [("stocks", 2)] 2 (by norm_num)
    (by with_unfolding_all decide)

/- ------------------------------------------------------------------ -/
/- Claim C3: rebalance conserves value net of the transaction cost.   -/
/- ------------------------------------------------------------------ -/

/-- Claim C3: for a target allocation with non-negative weights summing
to 1, `rebalance` returns new values and a cost with
sum(new values) + cost = portfolio_value exactly; the cost is
portfolio_value × (turnover/2) × transaction_cost for the turnover
Σ|target_weight − current_weight| (current weights read as value /
portfolio_value, 0 when the portfolio value is not positive); and every
new value is (portfolio_value − cost) × target_weight. -/
theorem rebalance_conservation (s : RebalanceStrategy)
    (current_values : Alloc) (portfolio_value : ℚ)
    (hw : ∀ q ∈ s.target_allocation, 0 ≤ q.2)
    (hsum : (s.target_allocation.map Prod.snd).sum = 1) :
    valuesSum (rebalance s current_values portfolio_value).1 +
        (rebalance s current_values portfolio_value).2 = portfolio_value ∧
    (rebalance s current_values portfolio_value).2 =
      portfolio_value *
        ((s.target_allocation.map (fun q => |q.2 -
          (if 0 < portfolio_value then
            getValue current_values q.1 / portfolio_value
          else 0)|)).sum / 2) * s.transaction_cost ∧
    (rebalance s current_values portfolio_value).1 =
      s.target_allocation.map (fun q =>
        (q.1, (portfolio_value -
          (rebalance s current_values portfolio_value).2) * q.2)) := by
  have hvals : (rebalance s current_values portfolio_value).1 =
      s.target_allocation.map (fun q =>
        (q.1, (portfolio_value -
          (rebalance s current_values portfolio_value).2) * q.2)) := rfl
  have hcost : (rebalance s current_values portfolio_value).2 =
      portfolio_value *
        ((s.target_allocation.map (fun q => |q.2 -
          (if 0 < portfolio_value then
            getValue current_values q.1 / portfolio_value
          else 0)|)).sum / 2) * s.transaction_cost := by
    show calculate_rebalance_cost s s.target_allocation
        (current_values.map (fun q => (q.1,
          if 0 < portfolio_value then q.2 / portfolio_value else 0)))
        portfolio_value = _
    unfold calculate_rebalance_cost
    have hg : ∀ k, getValue (current_values.map (fun q => (q.1,
        if 0 < portfolio_value then q.2 / portfolio_value else 0))) k =
        (if 0 < portfolio_value then
          getValue current_values k / portfolio_value else 0) := by
      intro k
      have h0 : (if 0 < portfolio_value then
          (0:ℚ) / portfolio_value else 0) = 0 := by
        by_cases hp : 0 < portfolio_value <;> simp [hp]
      exact getValue_map_snd
        (fun v => if 0 < portfolio_value then v / portfolio_value else 0)
        h0 current_values k
    have : (fun q : String × ℚ => |q.2 -
        getValue (current_values.map (fun r => (r.1,
          if 0 < portfolio_value then r.2 / portfolio_value else 0))) q.1|)
        = (fun q : String × ℚ => |q.2 -
          (if 0 < portfolio_value then
            getValue current_values q.1 / portfolio_value else 0)|) := by
      funext q
      rw [hg]
    rw [this]
  refine ⟨?_, hcost, hvals⟩
  rw [hvals, valuesSum_map_mul_left]
  unfold valuesSum
  rw [hsum, mul_one]
  ring

/-- Witness for `rebalance_conservation` at a concrete strategy. -/
theorem rebalance_conservation_witness :
    valuesSum (rebalance ruinStrategy
        [("stocks", 70000), ("bonds", 30000)] 100000).1 +
      (rebalance ruinStrategy
        [("stocks", 70000), ("bonds", 30000)] 100000).2 = 100000 ∧
    (rebalance ruinStrategy [("stocks", 70000), ("bonds", 30000)]
        100000).2 =
      100000 *
        ((ruinStrategy.target_allocation.map (fun q => |q.2 -
          (if (0:ℚ) < 100000 then
            getValue [("stocks", 70000), ("bonds", 30000)] q.1 / 100000
          else 0)|)).sum / 2) * ruinStrategy.transaction_cost ∧
    (rebalance ruinStrategy [("stocks", 70000), ("bonds", 30000)]
        100000).1 =
      ruinStrategy.target_allocation.map (fun q =>
        (q.1, (100000 - (rebalance ruinStrategy
          [("stocks", 70000), ("bonds", 30000)] 100000).2) * q.2)) :=
  rebalance_conservation ruinStrategy [("stocks", 70000), ("bonds", 30000)]
    100000 (by with_unfolding_all decide) (by with_unfolding_all decide)

/- ------------------------------------------------------------------ -/
/- Claim C2: the strategy object is shared across iterations.         -/
/- ------------------------------------------------------------------ -/

/-- Claim C2, counterexample: running two Monte Carlo iterations with a
monthly time-based strategy and identical generated returns, the strategy
entering iteration 2 already has a reference date recorded (the claim
says it is unset at the start of each iteration), and consequently
iteration 1 pays a rebalance cost of 48 while the identical iteration 2
pays 0. -/
theorem fresh_strategy_counterexample :
    ((strategiesUsed leakParams leakGen none 2 0 leakStrategy).map
        RebalanceStrategy.last_rebalance_date) = [none, some 0] ∧
    ((monte_carlo_simulation leakParams leakStrategy leakGen none
        2).2.map PathMetrics.total_rebalance_costs) = [48, 0] := by
  with_unfolding_all decide

/-- Claim C2, amended: `monte_carlo_simulation` never constructs a fresh
strategy; it hands the single strategy object on from each iteration to
the next, so iteration i+1 starts with exactly the strategy state (in
particular the last-rebalance date) that iteration i left behind. -/
theorem strategy_threading (p : SimParams) (gen : Option ℤ → List Alloc)
    (seed : Option ℤ) (strategy : RebalanceStrategy) (k i : ℕ) :
    mcRun p gen seed (k + 1) i strategy =
      simulate_portfolio_path p strategy (gen (seedForIteration seed i)) ::
        mcRun p gen seed k (i + 1)
          (simulate_portfolio_path p strategy
            (gen (seedForIteration seed i))).strategy ∧
    strategiesUsed p gen seed (k + 2) i strategy =
      strategy ::
        (simulate_portfolio_path p strategy
          (gen (seedForIteration seed i))).strategy ::
          strategiesUsed p gen seed k (i + 2)
            (simulate_portfolio_path p
              (simulate_portfolio_path p strategy
                (gen (seedForIteration seed i))).strategy
              (gen (seedForIteration seed (i + 1)))).strategy := by
  exact ⟨rfl, rfl⟩

/- ------------------------------------------------------------------ -/
/- Helper lemmas for the monthly loop.                                -/
/- ------------------------------------------------------------------ -/

theorem target_ne_nil (l : Alloc) (h : (l.map Prod.snd).sum = 1) :
    l ≠ [] := by
  intro he
  subst he
  simp at h

theorem should_rebalance_target (s : RebalanceStrategy)
    (current_allocation : Alloc) (date : ℤ) (pv : ℚ) :
    (should_rebalance s current_allocation date pv).2.target_allocation =
      s.target_allocation := by
  cases hr : s.rule with
  | timeBased f =>
    cases hl : s.last_rebalance_date with
    | none => simp [should_rebalance, hr, hl]
    | some l =>
      by_cases hd : frequencyDays f ≤ date - l <;>
        simp [should_rebalance, hr, hl, hd]
  | thresholdBased t => simp [should_rebalance, hr]

theorem contributionStep_eq_scaled (c : ℚ) (values : Alloc) (S : ℚ)
    (hc : c ≠ 0) (hpos : 0 < S + c) (hguard : ¬(S = 0 ∧ values ≠ [])) :
    contributionStep true c values S =
      (values.map (fun q => (q.1, q.2 * ((S + c) / S))), S + c, c,
        false) := by
  have hmap : (fun q : String × ℚ =>
      (q.1, q.2 / (S + c - c) * (S + c))) =
      (fun q : String × ℚ => (q.1, q.2 * ((S + c) / S))) := by
    funext q
    rw [add_sub_cancel_right, div_mul_eq_mul_div, mul_div_assoc]
  simp only [contributionStep, if_pos hc, if_pos hpos, if_neg hguard,
    hmap, if_true]

theorem contributionStep_off (e : Bool) (c : ℚ) (values : Alloc) (S : ℚ)
    (h : e = false ∨ c = 0) :
    contributionStep e c values S =
      (values, S, if e then c else 0, false) := by
  rcases h with h | h
  · subst h
    simp [contributionStep]
  · subst h
    cases e <;> simp [contributionStep]

theorem contributionStep_sum (e : Bool) (c : ℚ) (values : Alloc) (S : ℚ)
    (hS : valuesSum values = S) (hne : values ≠ [])
    (hcf : (contributionStep e c values S).2.2.2 = false) :
    (contributionStep e c values S).1 ≠ [] ∧
    (valuesSum (contributionStep e c values S).1 =
        (contributionStep e c values S).2.1 ∨
      (contributionStep e c values S).2.1 ≤ 0) := by
  cases e with
  | false =>
    rw [contributionStep_off false c values S (Or.inl rfl)]
    exact ⟨hne, Or.inl hS⟩
  | true =>
    by_cases hc : c = 0
    · rw [contributionStep_off true c values S (Or.inr hc), hc] at *
      exact ⟨hne, Or.inl hS⟩
    · by_cases hpos : 0 < S + c
      · have hguard : ¬(S = 0 ∧ values ≠ []) := by
          intro hg
          have hpc : 0 < c := by
            rw [hg.1, zero_add] at hpos
            exact hpos
          rw [show contributionStep true c values S =
              (values, S + c, c, true) by
            simp [contributionStep, hc, hpc, hg.1, hg.2]] at hcf
          exact Bool.true_eq_false.mp hcf
        rw [contributionStep_eq_scaled c values S hc hpos hguard]
        have hSne : S ≠ 0 := fun h => hguard ⟨h, hne⟩
        refine ⟨by simpa using hne, Or.inl ?_⟩
        rw [valuesSum_map_mul_right, hS]
        field_simp
      · push_neg at hpos
        have : contributionStep true c values S =
            (values, S + c, c, false) := by
          simp [contributionStep, hc, not_lt.mpr hpos]
        rw [this]
        exact ⟨hne, Or.inr hpos⟩

/- ------------------------------------------------------------------ -/
/- Invariants of the monthly loop (claims C4, C6, C8).                -/
/- ------------------------------------------------------------------ -/

theorem rebalance_sum (s : RebalanceStrategy) (v : Alloc) (pv : ℚ)
    (hts : (s.target_allocation.map Prod.snd).sum = 1) :
    valuesSum (rebalance s v pv).1 = pv - (rebalance s v pv).2 := by
  have hv : (rebalance s v pv).1 = s.target_allocation.map
      (fun q => (q.1, (pv - (rebalance s v pv).2) * q.2)) := rfl
  rw [hv, valuesSum_map_mul_left]
  unfold valuesSum
  rw [hts, mul_one]

theorem rebalance_fst_ne_nil (s : RebalanceStrategy) (v : Alloc) (pv : ℚ)
    (hts : (s.target_allocation.map Prod.snd).sum = 1) :
    (rebalance s v pv).1 ≠ [] := by
  have hv : (rebalance s v pv).1 = s.target_allocation.map
      (fun q => (q.1, (pv - (rebalance s v pv).2) * q.2)) := rfl
  rw [hv]
  simpa using target_ne_nil _ hts

theorem rebalanceBlock_spec (st : LoopState) (values2 : Alloc) (pv2 : ℚ)
    (hts : (st.strategy.target_allocation.map Prod.snd).sum = 1)
    (hv2 : valuesSum values2 = pv2) (hne2 : values2 ≠ []) :
    (rebalanceBlock st values2 pv2).1 ≠ [] ∧
    (rebalanceBlock st values2 pv2).2.1 =
      valuesSum (rebalanceBlock st values2 pv2).1 ∧
    (rebalanceBlock st values2 pv2).2.2.2.target_allocation =
      st.strategy.target_allocation := by
  simp only [rebalanceBlock]
  rcases hsr : should_rebalance st.strategy
      (values2.map (fun q => (q.1, if 0 < pv2 then q.2 / pv2 else 0)))
      st.current_date pv2 with ⟨go, strategy1⟩
  have htarget1 : strategy1.target_allocation =
      st.strategy.target_allocation := by
    have h2 := should_rebalance_target st.strategy
      (values2.map (fun q => (q.1, if 0 < pv2 then q.2 / pv2 else 0)))
      st.current_date pv2
    rw [hsr] at h2
    exact h2
  have hts1 : (strategy1.target_allocation.map Prod.snd).sum = 1 := by
    rw [htarget1]
    exact hts
  rw [hsr]
  cases go
  · simp only [Bool.false_eq_true, if_false]
    exact ⟨hne2, hv2.symm, htarget1⟩
  · simp only [if_true]
    exact ⟨rebalance_fst_ne_nil _ _ _ hts1,
      (rebalance_sum _ _ _ hts1).symm, htarget1⟩

theorem withdrawRebalanceStep_next (p : SimParams) (st : LoopState)
    (withdrawal : ℚ) (values1 : Alloc) (pv1 c1 mw : ℚ) (st1 : LoopState)
    (hmw : 0 ≤ mw)
    (hne : values1 ≠ [])
    (hts : (st.strategy.target_allocation.map Prod.snd).sum = 1)
    (hsum : valuesSum values1 = pv1 ∨ pv1 ≤ 0)
    (h : withdrawRebalanceStep p st withdrawal values1 pv1 c1 mw =
      StepResult.next st1) :
    st1.withdrawal = withdrawal ∧
    st1.asset_values ≠ [] ∧
    st1.strategy.target_allocation = st.strategy.target_allocation ∧
    st1.month = st.month + 1 ∧
    st1.portfolio_value = valuesSum st1.asset_values ∧
    ∃ row : HistoryRow,
      st1.history = st.history ++ [row] ∧
      row.portfolio_value = st1.portfolio_value ∧
      row.asset_values = st1.asset_values ∧
      row.total_rebalance_costs = st1.total_rebalance_costs := by
  simp only [withdrawRebalanceStep] at h
  by_cases hle : mw ≤ pv1
  swap
  · rw [if_neg hle] at h
    cases h
  rw [if_pos hle] at h
  by_cases hguard : pv1 = 0 ∧ values1 ≠ []
  · rw [if_pos hguard] at h
    cases h
  rw [if_neg hguard] at h
  have hpv1 : pv1 ≠ 0 := fun h0 => hguard ⟨h0, hne⟩
  have hv1 : valuesSum values1 = pv1 := by
    rcases hsum with hs | hs
    · exact hs
    · exact absurd (le_antisymm hs (hmw.trans hle)) hpv1
  have hsum2 : valuesSum (values1.map (fun q =>
      (q.1, q.2 * (1 - mw / (pv1 - mw + mw))))) = pv1 - mw := by
    rw [valuesSum_map_mul_right, hv1, sub_add_cancel]
    field_simp
  have hne2 : values1.map (fun q =>
      (q.1, q.2 * (1 - mw / (pv1 - mw + mw)))) ≠ [] := by
    simpa using hne
  obtain ⟨hb1, hb2, hb3⟩ := rebalanceBlock_spec st
    (values1.map (fun q => (q.1, q.2 * (1 - mw / (pv1 - mw + mw)))))
    (pv1 - mw) hts hsum2 hne2
  rw [StepResult.next.injEq] at h
  subst h
  exact ⟨rfl, hb1, hb3, rfl, hb2, ⟨_, rfl, rfl, rfl, rfl⟩⟩


theorem withdrawRebalanceStep_ruined (p : SimParams) (st : LoopState)
    (withdrawal : ℚ) (values1 : Alloc) (pv1 c1 mw : ℚ) (st1 : LoopState)
    (m : ℕ)
    (h : withdrawRebalanceStep p st withdrawal values1 pv1 c1 mw =
      StepResult.ruined st1 m) :
    m = st.month ∧ st1.history = st.history ∧
    (∀ q ∈ st1.asset_values, q.2 = 0) ∧ st1.portfolio_value = 0 ∧
    st1.total_rebalance_costs = st.total_rebalance_costs := by
  simp only [withdrawRebalanceStep] at h
  by_cases hle : mw ≤ pv1
  · rw [if_pos hle] at h
    by_cases hguard : pv1 = 0 ∧ values1 ≠ []
    · rw [if_pos hguard] at h
      cases h
    · rw [if_neg hguard] at h
      cases h
  · rw [if_neg hle] at h
    rw [StepResult.ruined.injEq] at h
    obtain ⟨h1, h2⟩ := h
    subst h1
    subst h2
    refine ⟨rfl, rfl, ?_, rfl, rfl⟩
    intro q hq
    rw [List.mem_map] at hq
    obtain ⟨r, _, rfl⟩ := hq
    rfl

theorem withdrawRebalanceStep_no_fail (p : SimParams) (st : LoopState)
    (withdrawal : ℚ) (values1 : Alloc) (pv1 c1 mw : ℚ) (st1 : LoopState)
    (hmw : 0 < mw)
    (h : withdrawRebalanceStep p st withdrawal values1 pv1 c1 mw =
      StepResult.failed st1) : False := by
  simp only [withdrawRebalanceStep] at h
  by_cases hle : mw ≤ pv1
  · rw [if_pos hle] at h
    by_cases hguard : pv1 = 0 ∧ values1 ≠ []
    · have h0 : (0:ℚ) < pv1 := lt_of_lt_of_le hmw hle
      rw [hguard.1] at h0
      exact lt_irrefl 0 h0
    · rw [if_neg hguard] at h
      cases h
  · rw [if_neg hle] at h
    cases h

theorem withdrawRebalanceStep_next_withdrawal (p : SimParams)
    (st : LoopState) (withdrawal : ℚ) (values1 : Alloc) (pv1 c1 mw : ℚ)
    (st1 : LoopState)
    (h : withdrawRebalanceStep p st withdrawal values1 pv1 c1 mw =
      StepResult.next st1) :
    st1.withdrawal = withdrawal := by
  simp only [withdrawRebalanceStep] at h
  by_cases hle : mw ≤ pv1
  · rw [if_pos hle] at h
    by_cases hguard : pv1 = 0 ∧ values1 ≠ []
    · rw [if_pos hguard] at h
      cases h
    · rw [if_neg hguard] at h
      rw [StepResult.next.injEq] at h
      subst h
      rfl
  · rw [if_neg hle] at h
    cases h

theorem monthlyWithdrawalOf_nonneg (p : SimParams) (month : ℕ) (w : ℚ)
    (hw : 0 ≤ w) (hf : 0 ≤ p.monthly_inflation_factor)
    (hth : 0 ≤ p.thirteenth_payment_amount) :
    0 ≤ monthlyWithdrawalOf p month w := by
  unfold monthlyWithdrawalOf
  split
  · split
    · exact add_nonneg hw (mul_nonneg hth (pow_nonneg hf _))
    · exact add_nonneg hw hth
  · exact hw

theorem monthlyWithdrawalOf_pos (p : SimParams) (month : ℕ) (w : ℚ)
    (hw : 0 < w)
    (hf : p.apply_inflation = true → 0 < p.monthly_inflation_factor)
    (hth : p.thirteenth_payment_enabled = true →
      0 ≤ p.thirteenth_payment_amount) :
    0 < monthlyWithdrawalOf p month w := by
  unfold monthlyWithdrawalOf
  split
  next h13 =>
    split
    next hinf =>
      exact add_pos_of_pos_of_nonneg hw
        (mul_nonneg (hth h13.1) (pow_nonneg (le_of_lt (hf hinf.1)) _))
    next hinf => exact add_pos_of_pos_of_nonneg hw (hth h13.1)
  next h13 => exact hw


theorem monthStep_next_spec (p : SimParams) (mr : Alloc)
    (st st1 : LoopState)
    (hf : 0 ≤ p.monthly_inflation_factor)
    (hth : 0 ≤ p.thirteenth_payment_amount)
    (hw : 0 ≤ st.withdrawal)
    (hne : st.asset_values ≠ [])
    (hts : (st.strategy.target_allocation.map Prod.snd).sum = 1)
    (h : monthStep p mr st = StepResult.next st1) :
    0 ≤ st1.withdrawal ∧
    st1.asset_values ≠ [] ∧
    st1.strategy.target_allocation = st.strategy.target_allocation ∧
    st1.month = st.month + 1 ∧
    st1.portfolio_value = valuesSum st1.asset_values ∧
    ∃ row : HistoryRow,
      st1.history = st.history ++ [row] ∧
      row.portfolio_value = st1.portfolio_value ∧
      row.asset_values = st1.asset_values ∧
      row.total_rebalance_costs = st1.total_rebalance_costs := by
  simp only [monthStep] at h
  generalize hWdef : (if p.apply_inflation = true ∧ 0 < st.month then
      st.withdrawal * p.monthly_inflation_factor
    else st.withdrawal) = W at h
  have hW : 0 ≤ W := by
    rw [← hWdef]
    split
    · exact mul_nonneg hw hf
    · exact hw
  generalize hRVdef : st.asset_values.map (fun q =>
      match List.lookup q.1 mr with
      | some factor => (q.1, q.2 * factor)
      | none => q) = RV at h
  have hRVne : RV ≠ [] := by
    rw [← hRVdef]
    simpa using hne
  by_cases hcf : (contributionStep p.contribution_enabled
      p.periodic_contribution RV (valuesSum RV)).2.2.2 = true
  · rw [if_pos hcf] at h
    cases h
  · rw [if_neg hcf] at h
    rw [Bool.not_eq_true] at hcf
    obtain ⟨hcne, hcsum⟩ := contributionStep_sum p.contribution_enabled
      p.periodic_contribution RV (valuesSum RV) rfl hRVne hcf
    obtain ⟨hw1, rest⟩ := withdrawRebalanceStep_next p st W
      (contributionStep p.contribution_enabled p.periodic_contribution RV
        (valuesSum RV)).1
      (contributionStep p.contribution_enabled p.periodic_contribution RV
        (valuesSum RV)).2.1
      (contributionStep p.contribution_enabled p.periodic_contribution RV
        (valuesSum RV)).2.2.1
      (monthlyWithdrawalOf p st.month W) st1
      (monthlyWithdrawalOf_nonneg p st.month W hW hf hth)
      hcne hts hcsum h
    exact ⟨hw1 ▸ hW, rest⟩


theorem monthStep_ruined_spec (p : SimParams) (mr : Alloc)
    (st st1 : LoopState) (m : ℕ)
    (h : monthStep p mr st = StepResult.ruined st1 m) :
    m = st.month ∧ st1.history = st.history ∧
    (∀ q ∈ st1.asset_values, q.2 = 0) ∧ st1.portfolio_value = 0 ∧
    st1.total_rebalance_costs = st.total_rebalance_costs := by
  simp only [monthStep] at h
  generalize hWdef : (if p.apply_inflation = true ∧ 0 < st.month then
      st.withdrawal * p.monthly_inflation_factor
    else st.withdrawal) = W at h
  generalize hRVdef : st.asset_values.map (fun q =>
      match List.lookup q.1 mr with
      | some factor => (q.1, q.2 * factor)
      | none => q) = RV at h
  by_cases hcf : (contributionStep p.contribution_enabled
      p.periodic_contribution RV (valuesSum RV)).2.2.2 = true
  · rw [if_pos hcf] at h
    cases h
  · rw [if_neg hcf] at h
    exact withdrawRebalanceStep_ruined p st W _ _ _ _ st1 m h

theorem monthStep_no_fail (p : SimParams) (mr : Alloc) (st : LoopState)
    (hc : p.contribution_enabled = false ∨ p.periodic_contribution = 0)
    (hw0 : 0 < st.withdrawal)
    (hfpos : p.apply_inflation = true → 0 < p.monthly_inflation_factor)
    (h13 : p.thirteenth_payment_enabled = true →
      0 ≤ p.thirteenth_payment_amount) :
    (∀ st1, monthStep p mr st ≠ StepResult.failed st1) ∧
    (∀ st1, monthStep p mr st = StepResult.next st1 →
      0 < st1.withdrawal) := by
  have hW : 0 < (if p.apply_inflation = true ∧ 0 < st.month then
      st.withdrawal * p.monthly_inflation_factor
    else st.withdrawal) := by
    split
    next hinf => exact mul_pos hw0 (hfpos hinf.1)
    next hinf => exact hw0
  have hmw := monthlyWithdrawalOf_pos p st.month _ hW hfpos h13
  constructor
  · intro st1 h
    simp only [monthStep] at h
    rw [contributionStep_off p.contribution_enabled p.periodic_contribution
      _ _ hc] at h
    simp only [Bool.false_eq_true, if_false] at h
    exact withdrawRebalanceStep_no_fail p st _ _ _ _ _ st1 hmw h
  · intro st1 h
    simp only [monthStep] at h
    rw [contributionStep_off p.contribution_enabled p.periodic_contribution
      _ _ hc] at h
    simp only [Bool.false_eq_true, if_false] at h
    rw [withdrawRebalanceStep_next_withdrawal p st _ _ _ _ _ st1 h]
    exact hW


theorem lastRecordedCosts_append (history : List HistoryRow)
    (row : HistoryRow) :
    lastRecordedCosts (history ++ [row]) = row.total_rebalance_costs := by
  unfold lastRecordedCosts
  rw [List.getLast?_concat]

theorem runMonths_spec (p : SimParams)
    (hf : 0 ≤ p.monthly_inflation_factor)
    (hth : 0 ≤ p.thirteenth_payment_amount) :
    ∀ (rows : List Alloc) (st : LoopState),
      0 ≤ st.withdrawal →
      st.asset_values ≠ [] →
      (st.strategy.target_allocation.map Prod.snd).sum = 1 →
      st.history.length = st.month →
      st.total_rebalance_costs = lastRecordedCosts st.history →
      (∀ row ∈ st.history,
        row.portfolio_value = valuesSum row.asset_values) →
      (runMonths p rows st).2.2 = false →
      (∀ row ∈ (runMonths p rows st).1.history,
        row.portfolio_value = valuesSum row.asset_values) ∧
      ∀ m, (runMonths p rows st).2.1 = some m →
        (∀ q ∈ (runMonths p rows st).1.asset_values, q.2 = 0) ∧
        (runMonths p rows st).1.portfolio_value = 0 ∧
        (runMonths p rows st).1.history.length = m ∧
        (runMonths p rows st).1.total_rebalance_costs =
          lastRecordedCosts (runMonths p rows st).1.history := by
  intro rows
  induction rows with
  | nil =>
    intro st h1 h2 h3 h4 h5 h6 h7
    refine ⟨h6, fun m hm => ?_⟩
    simp [runMonths] at hm
  | cons mr rest ih =>
    intro st h1 h2 h3 h4 h5 h6 h7
    cases hstep : monthStep p mr st with
    | next st2 =>
      have hr : runMonths p (mr :: rest) st = runMonths p rest st2 := by
        simp [runMonths, hstep]
      rw [hr] at h7 ⊢
      obtain ⟨k1, k2, k3, k4, k5, row, k6, k7, k8, k9⟩ :=
        monthStep_next_spec p mr st st2 hf hth h1 h2 h3 hstep
      refine ih st2 k1 k2 (by rw [k3]; exact h3) ?_ ?_ ?_ h7
      · rw [k6, List.length_append, h4, k4, List.length_singleton]
      · rw [k6, lastRecordedCosts_append, k9]
      · intro r hmem
        rw [k6] at hmem
        rcases List.mem_append.mp hmem with hmem2 | hmem2
        · exact h6 r hmem2
        · rw [List.mem_singleton] at hmem2
          subst hmem2
          rw [k7, k8]
          exact k5
    | ruined st2 m2 =>
      have hr : runMonths p (mr :: rest) st = (st2, some m2, false) := by
        simp [runMonths, hstep]
      rw [hr] at h7 ⊢
      obtain ⟨k1, k2, k3, k4, k5⟩ := monthStep_ruined_spec p mr st st2 m2
        hstep
      refine ⟨?_, ?_⟩
      · intro r hmem
        rw [show (st2, some m2, false).1 = st2 from rfl, k2] at hmem
        exact h6 r hmem
      · intro m hm
        have hm2 : m2 = m := by
          injection hm.symm with hmm
          exact hmm.symm
        subst hm2
        refine ⟨k3, k4, ?_, ?_⟩
        · show st2.history.length = m2
          rw [k2, h4, k1]
        · show st2.total_rebalance_costs = lastRecordedCosts st2.history
          rw [k5, k2]
          exact h5
    | failed st2 =>
      have hr : runMonths p (mr :: rest) st = (st2, none, true) := by
        simp [runMonths, hstep]
      rw [hr] at h7
      cases h7

theorem runMonths_no_fault (p : SimParams)
    (hc : p.contribution_enabled = false ∨ p.periodic_contribution = 0)
    (hfpos : p.apply_inflation = true → 0 < p.monthly_inflation_factor)
    (h13 : p.thirteenth_payment_enabled = true →
      0 ≤ p.thirteenth_payment_amount) :
    ∀ (rows : List Alloc) (st : LoopState), 0 < st.withdrawal →
      (runMonths p rows st).2.2 = false := by
  intro rows
  induction rows with
  | nil =>
    intro st hw
    simp [runMonths]
  | cons mr rest ih =>
    intro st hw
    obtain ⟨hnf, hnext⟩ := monthStep_no_fail p mr st hc hw hfpos h13
    cases hstep : monthStep p mr st with
    | next st2 =>
      have hr : runMonths p (mr :: rest) st = runMonths p rest st2 := by
        simp [runMonths, hstep]
      rw [hr]
      exact ih st2 (hnext st2 hstep)
    | ruined st2 m => simp [runMonths, hstep]
    | failed st2 => exact absurd hstep (hnf st2)


theorem simulate_spec (p : SimParams) (strategy : RebalanceStrategy)
    (rows : List Alloc)
    (halloc : (p.allocation.map Prod.snd).sum = 1)
    (htarget : (strategy.target_allocation.map Prod.snd).sum = 1)
    (hw : 0 ≤ p.withdrawal_amount)
    (hf : 0 ≤ p.monthly_inflation_factor)
    (hth : 0 ≤ p.thirteenth_payment_amount)
    (hfault : (simulate_portfolio_path p strategy rows).fault = false) :
    (∀ row ∈ (simulate_portfolio_path p strategy rows).history,
      row.portfolio_value = valuesSum row.asset_values) ∧
    ((simulate_portfolio_path p strategy rows).metrics.months_survived <
        rows.length →
      (∀ q ∈ (simulate_portfolio_path p strategy rows).asset_values,
        q.2 = 0) ∧
      (simulate_portfolio_path p strategy rows).metrics.final_value = 0 ∧
      (simulate_portfolio_path p strategy rows).history.length =
        (simulate_portfolio_path p strategy rows).metrics.months_survived ∧
      (simulate_portfolio_path p strategy
          rows).metrics.total_rebalance_costs =
        lastRecordedCosts
          (simulate_portfolio_path p strategy rows).history) := by
  rcases hrun : runMonths p rows
      { month := 0
        asset_values := p.allocation.map
          (fun q => (q.1, p.initial_capital * q.2))
        portfolio_value := p.initial_capital
        withdrawal := p.withdrawal_amount
        total_withdrawals := 0
        total_contributions := 0
        total_rebalance_costs := 0
        strategy := strategy
        current_date := 0
        history := [] } with ⟨st, ruin, fault⟩
  obtain ⟨A, B⟩ := runMonths_spec p hf hth rows
    { month := 0,
      asset_values := p.allocation.map
        (fun q => (q.1, p.initial_capital * q.2)),
      portfolio_value := p.initial_capital,
      withdrawal := p.withdrawal_amount, total_withdrawals := 0,
      total_contributions := 0, total_rebalance_costs := 0,
      strategy := strategy, current_date := 0, history := [] }
    hw
    (by simpa using target_ne_nil _ halloc)
    htarget
    rfl
    rfl
    (by simp)
    (by rw [hrun]
        simp only [simulate_portfolio_path, hrun] at hfault
        exact hfault)
  rw [hrun] at A B
  simp only [simulate_portfolio_path, hrun]
  cases ruin with
  | none =>
    refine ⟨A, fun hlt => absurd hlt (lt_irrefl _)⟩
  | some m =>
    obtain ⟨B1, B2, B3, B4⟩ := B m rfl
    exact ⟨A, fun _ => ⟨B1, B2, B3, B4⟩⟩

theorem simulate_no_fault (p : SimParams) (strategy : RebalanceStrategy)
    (rows : List Alloc)
    (hc : p.contribution_enabled = false ∨ p.periodic_contribution = 0)
    (hw0 : 0 < p.withdrawal_amount)
    (hfpos : p.apply_inflation = true → 0 < p.monthly_inflation_factor)
    (h13 : p.thirteenth_payment_enabled = true →
      0 ≤ p.thirteenth_payment_amount) :
    (simulate_portfolio_path p strategy rows).fault = false := by
  rcases hrun : runMonths p rows
      { month := 0
        asset_values := p.allocation.map
          (fun q => (q.1, p.initial_capital * q.2))
        portfolio_value := p.initial_capital
        withdrawal := p.withdrawal_amount
        total_withdrawals := 0
        total_contributions := 0
        total_rebalance_costs := 0
        strategy := strategy
        current_date := 0
        history := [] } with ⟨st, ruin, fault⟩
  have hnf := runMonths_no_fault p hc hfpos h13 rows
    { month := 0,
      asset_values := p.allocation.map
        (fun q => (q.1, p.initial_capital * q.2)),
      portfolio_value := p.initial_capital,
      withdrawal := p.withdrawal_amount, total_withdrawals := 0,
      total_contributions := 0, total_rebalance_costs := 0,
      strategy := strategy, current_date := 0, history := [] }
    hw0
  rw [hrun] at hnf
  simp only [simulate_portfolio_path, hrun]
  exact hnf


/-- Claim C4: with allocation and target weights summing to 1,
non-negative withdrawal parameters and a fault-free run, every recorded
month boundary satisfies portfolio_value = sum of the per-asset values
(exactly, in the rational model), and once ruin is declared every
per-asset value is zero, the final value is 0, and no further months are
simulated (the history stops at the ruin month). -/
theorem month_boundary_invariant (p : SimParams)
    (strategy : RebalanceStrategy) (rows : List Alloc)
    (halloc : (p.allocation.map Prod.snd).sum = 1)
    (htarget : (strategy.target_allocation.map Prod.snd).sum = 1)
    (hw : 0 ≤ p.withdrawal_amount)
    (hf : 0 ≤ p.monthly_inflation_factor)
    (hth : 0 ≤ p.thirteenth_payment_amount)
    (hfault : (simulate_portfolio_path p strategy rows).fault = false) :
    (∀ row ∈ (simulate_portfolio_path p strategy rows).history,
      row.portfolio_value = valuesSum row.asset_values) ∧
    ((simulate_portfolio_path p strategy rows).metrics.months_survived <
        rows.length →
      (∀ q ∈ (simulate_portfolio_path p strategy rows).asset_values,
        q.2 = 0) ∧
      (simulate_portfolio_path p strategy rows).metrics.final_value = 0 ∧
      (simulate_portfolio_path p strategy rows).history.length =
        (simulate_portfolio_path p strategy
          rows).metrics.months_survived) := by
  obtain ⟨A, B⟩ := simulate_spec p strategy rows halloc htarget hw hf hth
    hfault
  exact ⟨A, fun hlt => ⟨(B hlt).1, (B hlt).2.1, (B hlt).2.2.1⟩⟩

/-- Witness for `month_boundary_invariant` at a concrete two-month run. -/
theorem month_boundary_invariant_witness :
    (∀ row ∈ (simulate_portfolio_path smallRuinParams ruinStrategy
        smallRows).history,
      row.portfolio_value = valuesSum row.asset_values) ∧
    ((simulate_portfolio_path smallRuinParams ruinStrategy
        smallRows).metrics.months_survived < smallRows.length →
      (∀ q ∈ (simulate_portfolio_path smallRuinParams ruinStrategy
          smallRows).asset_values, q.2 = 0) ∧
      (simulate_portfolio_path smallRuinParams ruinStrategy
        smallRows).metrics.final_value = 0 ∧
      (simulate_portfolio_path smallRuinParams ruinStrategy
          smallRows).history.length =
        (simulate_portfolio_path smallRuinParams ruinStrategy
          smallRows).metrics.months_survived) :=
  month_boundary_invariant smallRuinParams ruinStrategy smallRows
    (by with_unfolding_all decide) (by with_unfolding_all decide)
    (by with_unfolding_all decide) (by with_unfolding_all decide)
    (by with_unfolding_all decide) (by with_unfolding_all decide)

/-- Claim C6, counterexample: a run whose contribution exactly cancels the
portfolio (initial capital 100, contribution -100, withdrawal 0) performs
a division with a zero divisor in the withdrawal proration — a
ZeroDivisionError in the source — instead of reaching the ruin state, so
not every proration division is guarded. -/
theorem proration_fault_counterexample :
    (simulate_portfolio_path faultParams ruinStrategy
      [[("stocks", 1), ("bonds", 1)]]).fault = true := by
  with_unfolding_all decide

/-- Claim C6, amended: the proration divisions are only guarded by the
`portfolio_value > 0` contribution check and the `portfolio_value ≥
withdrawal` ruin check.  These do rule out every zero divisor when
contributions are disabled (or zero) and the monthly withdrawal is
positive: under those conditions no arithmetic fault can occur. -/
theorem proration_no_fault (p : SimParams) (strategy : RebalanceStrategy)
    (rows : List Alloc)
    (hc : p.contribution_enabled = false ∨ p.periodic_contribution = 0)
    (hw0 : 0 < p.withdrawal_amount)
    (hfpos : p.apply_inflation = true → 0 < p.monthly_inflation_factor)
    (h13 : p.thirteenth_payment_enabled = true →
      0 ≤ p.thirteenth_payment_amount) :
    (simulate_portfolio_path p strategy rows).fault = false :=
  simulate_no_fault p strategy rows hc hw0 hfpos h13

/-- Witness for `proration_no_fault` at a concrete run. -/
theorem proration_no_fault_witness :
    (simulate_portfolio_path smallRuinParams ruinStrategy
      smallRows).fault = false :=
  proration_no_fault smallRuinParams ruinStrategy smallRows
    (Or.inl (by with_unfolding_all decide))
    (by with_unfolding_all decide)
    (by intro h; exact absurd h (by with_unfolding_all decide))
    (by intro h; exact absurd h (by with_unfolding_all decide))

/-- Claim C8: with initial capital 100000, allocation 0.6/0.4, zero
monthly returns, withdrawal 2000, no inflation, no contributions, zero
transaction cost and horizon 60 months, the simulator reports
months_survived = 50, survived_full_period = false and final_value = 0,
with all asset values zeroed and exactly 50 recorded months; and in
general, in any fault-free ruined run the simulator records
months_survived = the ruin month index, zeroes every asset, stops
simulating (history length = months_survived) and performs no rebalance
in the ruin month (the cumulative rebalance cost equals the last recorded
month's). -/
theorem ruin_arithmetic :
    ((simulate_portfolio_path ruinParams ruinStrategy
        ruinRows).metrics.months_survived = 50 ∧
     (simulate_portfolio_path ruinParams ruinStrategy
        ruinRows).metrics.survived_full_period = false ∧
     (simulate_portfolio_path ruinParams ruinStrategy
        ruinRows).metrics.final_value = 0 ∧
     (∀ q ∈ (simulate_portfolio_path ruinParams ruinStrategy
        ruinRows).asset_values, q.2 = 0) ∧
     (simulate_portfolio_path ruinParams ruinStrategy
        ruinRows).history.length = 50) ∧
    ∀ (p : SimParams) (strategy : RebalanceStrategy) (rows : List Alloc),
      (p.allocation.map Prod.snd).sum = 1 →
      (strategy.target_allocation.map Prod.snd).sum = 1 →
      0 ≤ p.withdrawal_amount → 0 ≤ p.monthly_inflation_factor →
      0 ≤ p.thirteenth_payment_amount →
      (simulate_portfolio_path p strategy rows).fault = false →
      (simulate_portfolio_path p strategy rows).metrics.months_survived <
        rows.length →
      (∀ q ∈ (simulate_portfolio_path p strategy rows).asset_values,
        q.2 = 0) ∧
      (simulate_portfolio_path p strategy rows).metrics.final_value = 0 ∧
      (simulate_portfolio_path p strategy rows).history.length =
        (simulate_portfolio_path p strategy rows).metrics.months_survived ∧
      (simulate_portfolio_path p strategy
          rows).metrics.total_rebalance_costs =
        lastRecordedCosts
          (simulate_portfolio_path p strategy rows).history := by
  constructor
  · with_unfolding_all decide
  · intro p strategy rows halloc htarget hw hf hth hfault hlt
    exact (simulate_spec p strategy rows halloc htarget hw hf hth
      hfault).2 hlt

/-- Witness for the general clause of `ruin_arithmetic` at a concrete
ruined run. -/
theorem ruin_arithmetic_witness :
    (∀ q ∈ (simulate_portfolio_path smallRuinParams ruinStrategy
        smallFlatRows).asset_values, q.2 = 0) ∧
    (simulate_portfolio_path smallRuinParams ruinStrategy
      smallFlatRows).metrics.final_value = 0 ∧
    (simulate_portfolio_path smallRuinParams ruinStrategy
        smallFlatRows).history.length =
      (simulate_portfolio_path smallRuinParams ruinStrategy
        smallFlatRows).metrics.months_survived ∧
    (simulate_portfolio_path smallRuinParams ruinStrategy
        smallFlatRows).metrics.total_rebalance_costs =
      lastRecordedCosts (simulate_portfolio_path smallRuinParams
        ruinStrategy smallFlatRows).history :=
  ruin_arithmetic.2 smallRuinParams ruinStrategy smallFlatRows
    (by with_unfolding_all decide) (by with_unfolding_all decide)
    (by with_unfolding_all decide) (by with_unfolding_all decide)
    (by with_unfolding_all decide) (by with_unfolding_all decide)
    (by with_unfolding_all decide)

end PortfolioMC
